import Mathlib

/-!
# Resource state resolver of `edgecentercloud-go`

A shallow embedding of `util/resource.go` (`ResourceIsDeleted`, `ResourceIsExist`,
`HandleStatusCode`) together with the Go runtime notions these functions rely on:
`error` values, `errors.Is`, `fmt.Errorf` with a `%w` verb, nil pointers and the
run-time panic raised when a nil pointer is dereferenced. The wrappers of
`floatingips.go` and `ports.go` that take a request pointer are embedded as well, over a
client whose methods are parameters.

Conventions of the embedding
* a Go pointer `*T` is an `Option T` (`none` is `nil`);
* a Go `error` interface value is an `Option GoError` (`none` is `nil`);
* a Go `int` is an `Int`; no arithmetic is performed on status codes, so no
  wrap-around can occur;
* a Go function that may panic returns an `Except Panic _`;
* the caller-supplied retrieval function is effectful, so it is a state-passing
  function over an arbitrary world state `W`, and the resolvers thread that state.
-/

namespace EdgeCloud

/-! ## Go run-time model -/

/-- Go `error` values. `errorString` is the pointer returned by `errors.New`; Go compares
such values by address, hence the `addr` component. `wrapError` is the value built by
`fmt.Errorf` when the format contains `%w`. `foreign` stands for an error of any other
dynamic type (argument errors, API error responses, transport errors). -/
inductive GoError where
  | errorString (addr : Nat) (s : String)
  | wrapError (msg : String) (err : GoError)
  | foreign (msg : String)
  deriving DecidableEq, Repr

/-- The `Error()` method of an error value. -/
def GoError.Error : GoError → String
  | .errorString _ s => s
  | .wrapError msg _ => msg
  | .foreign msg => msg

/-- The `Unwrap()` step used by the `errors` package: only `wrapError` has one. -/
def GoError.Unwrap : GoError → Option GoError
  | .wrapError _ err => some err
  | _ => none

/-- Go `errors.Is(err, target)`: walk the `Unwrap` chain of `err`, comparing with `target`.
The comparison is the derived equality; for a `target` built by `errors.New` (the only
targets used below) it agrees with the pointer comparison of Go, thanks to `addr`. -/
def errorsIs (err target : GoError) : Bool :=
  match err with
  | .wrapError msg inner => (GoError.wrapError msg inner == target) || errorsIs inner target
  | e => e == target

/-- Go `errors.Is` on interface values, where either side may be `nil`. -/
def errorsIsOpt (err : Option GoError) (target : GoError) : Bool :=
  match err with
  | none => false
  | some e => errorsIs e target

/-- The rendering of the verb `%d` for an `int`: decimal digits with a leading minus sign
for negative numbers. -/
def formatInt (i : Int) : String := toString i

/-- The call `fmt.Errorf("%w, status code: %d", err, statusCode)`: the message is the
format with `%w` rendered as `err.Error()`, and the result wraps `err`. -/
def fmtErrorf (err : GoError) (statusCode : Int) : GoError :=
  .wrapError (err.Error ++ ", status code: " ++ formatInt statusCode) err

/-- Run-time panics of the Go program. -/
inductive Panic where
  | nilPointerDereference
  deriving DecidableEq, Repr

/-! ## `net/http` status constants -/

namespace http

/-- Go `http.StatusOK`. -/
@[reducible] def StatusOK : Int := 200

/-- Go `http.StatusForbidden`. -/
@[reducible] def StatusForbidden : Int := 403

/-- Go `http.StatusNotFound`. -/
@[reducible] def StatusNotFound : Int := 404

end http

/-! ## Data model -/

/-- Modelled from the spec: the declaration of `edgecloud.Response` is not among the
sources; the resolver reads only its `StatusCode` field (the spec's "status code" of a
retrieval outcome), so the record carries exactly that field. -/
structure Response where
  StatusCode : Int
  deriving DecidableEq, Repr

/-- The triple `(*T, *edgecloud.Response, error)` returned by a retrieval function. -/
structure RetrievalOutcome (T : Type) where
  resource : Option T
  resp : Option Response
  err : Option GoError

/-- Go `RetrieveResourceFunc[T]`: `func(ctx, id) (*T, *edgecloud.Response, error)`, as a
state-passing function over the world state `W`. -/
abbrev RetrieveResourceFunc (W Ctx T : Type) := Ctx → String → W → RetrievalOutcome T × W

/-- Go `GetResourceFunc[T]`: same signature as `RetrieveResourceFunc[T]`. -/
abbrev GetResourceFunc (W Ctx T : Type) := Ctx → String → W → RetrievalOutcome T × W

/-! ## `util/resource.go` -/

/-- The package variable `errResourceNotDeleted = errors.New("could not delete the resource")`. -/
def errResourceNotDeleted : GoError := .errorString 0 "could not delete the resource"

/-- The package variable
`errGetResourceInfo = errors.New("error when retrieving resource information")`. -/
def errGetResourceInfo : GoError := .errorString 1 "error when retrieving resource information"

/-- Go `ResourceIsDeleted`: one call of the retrieval function; a nil error means the
resource is still there; otherwise `resp.StatusCode` is read, which panics on a nil
`resp`. -/
def ResourceIsDeleted {W Ctx T : Type} (ctx : Ctx)
    (retrieveResourceFunc : RetrieveResourceFunc W Ctx T) (id : String) (w : W) :
    Except Panic (Option GoError) × W :=
  match retrieveResourceFunc ctx id w with
  | (⟨_, resp, err⟩, w1) =>
    match err with
    | none => (.ok (some errResourceNotDeleted), w1)
    | some _ =>
      match resp with
      | none => (.error .nilPointerDereference, w1)
      | some r =>
        if r.StatusCode = http.StatusNotFound then (.ok none, w1)
        else (.ok (some errGetResourceInfo), w1)

/-- Go `HandleStatusCode`: the `switch` over the status code. -/
def HandleStatusCode (statusCode : Int) : Bool × Option GoError :=
  if statusCode = http.StatusOK then (true, none)
  else if statusCode = http.StatusNotFound ∨ statusCode = http.StatusForbidden then (false, none)
  else (false, some (fmtErrorf errGetResourceInfo statusCode))

/-- Go `ResourceIsExist`: one call of the get function, whose resource and error are
dropped; `resp.StatusCode` is read, which panics on a nil `resp`. -/
def ResourceIsExist {W Ctx T : Type} (ctx : Ctx)
    (getResourceFunc : GetResourceFunc W Ctx T) (id : String) (w : W) :
    Except Panic (Bool × Option GoError) × W :=
  match getResourceFunc ctx id w with
  | (⟨_, resp, _⟩, w1) =>
    match resp with
    | none => (.error .nilPointerDereference, w1)
    | some r => (.ok (HandleStatusCode r.StatusCode), w1)

/-! ## `floatingips.go`: the `Get` wrapper -/

/-- The collaborators of the CRUD wrappers. Their code (`isValidUUID`, `Client.Validate`,
`Client.addProjectRegionPath`, `Client.NewRequest`, `Client.Do`) is not among the sources,
so they are parameters of the embedding. `Do` performs the HTTP exchange, hence it passes
the world state; next to the response and the error it yields the value decoded into its
third argument. -/
structure Client (W Ctx Req T : Type) where
  isValidUUID : String → String → Option Response × Option GoError
  Validate : Option Response × Option GoError
  addProjectRegionPath : String → String
  NewRequest : Ctx → String → String → Option Req × Option GoError
  Do : Ctx → Option Req → W → (T × Option Response × Option GoError) × W

/-- The constant `floatingipsBasePathV1`. -/
def floatingipsBasePathV1 : String := "/v1/floatingips"

/-- Go `FloatingipsServiceOp.Get`, with a nil request body passed to `NewRequest`. -/
def FloatingipsServiceOp.Get {W Ctx Req T : Type} (client : Client W Ctx Req T)
    (ctx : Ctx) (fipID : String) (w : W) : RetrievalOutcome T × W :=
  match client.isValidUUID fipID "fipID" with
  | (resp, some err) => (⟨none, resp, some err⟩, w)
  | (_, none) =>
    match client.Validate with
    | (resp, some err) => (⟨none, resp, some err⟩, w)
    | (_, none) =>
      let path := client.addProjectRegionPath floatingipsBasePathV1 ++ "/" ++ fipID
      match client.NewRequest ctx "GET" path with
      | (_, some err) => (⟨none, none, some err⟩, w)
      | (req, none) =>
        match client.Do ctx req w with
        | ((_, resp, some err), w1) => (⟨none, resp, some err⟩, w1)
        | ((fip, resp, none), w1) => (⟨some fip, resp, none⟩, w1)

/-- A client whose `NewRequest` fails (for instance on an unparsable base URL); its `Do`
is never reached. -/
def brokenRequestClient : Client Unit Unit Unit Unit where
  isValidUUID := fun _ _ => (none, none)
  Validate := (none, none)
  addProjectRegionPath := fun p => p ++ "/1/1"
  NewRequest := fun _ _ _ => (none, some (.foreign "invalid URL escape"))
  Do := fun _ _ w => (((), some ⟨200⟩, none), w)

/-! ## Instrumentation and sample values used in the statements -/

/-- A retrieval function that ignores its arguments and the world and returns `o`. -/
def constRetrieve {W Ctx T : Type} (o : RetrievalOutcome T) : RetrieveResourceFunc W Ctx T :=
  fun _ _ w => (o, w)

/-- The retrieval function `f` instrumented with a call log: each call appends the
`(ctx, id)` it received to the log kept next to the world state. -/
def recordCalls {W Ctx T : Type} (f : RetrieveResourceFunc W Ctx T) :
    RetrieveResourceFunc (W × List (Ctx × String)) Ctx T :=
  fun ctx id s =>
    match f ctx id s.1 with
    | (o, w1) => (o, (w1, s.2 ++ [(ctx, id)]))

/-- A sample "not found" error returned by a retrieval function. -/
def ErrNotFound : GoError := .foreign "not found"

/-- A sample transport-level error (no HTTP response was received). -/
def errTransport : GoError := .foreign "dial tcp: connection refused"

/-- The decimal digit characters of a natural number, most significant first. -/
def decimalChars (n : Nat) : List Char :=
  if n = 0 then ['0'] else ((Nat.digits 10 n).reverse.map Nat.digitChar)

/-- Reading a list of decimal digit characters back as a number. -/
def decimalValue (l : List Char) : Nat :=
  Nat.ofDigits 10 (l.reverse.map (fun c => c.toNat - 48))

/-! ## `floatingips.go` and `ports.go`: the wrappers that take a request pointer -/

/-- The collaborators of the wrappers with every call of a client method observable: the
methods `Validate`, `addProjectRegionPath`, `NewRequest` and `Do` of `*Client` pass the
world state, so a call that is made can leave a mark in it. `isValidUUID`, `NewArgError`
and `metadataCreate` are package-level functions. None of this code is among the sources,
so all of it is a parameter of the embedding. `metadataCreate` stands for the helper
already applied to the client. -/
structure ServiceClient (W Ctx Req Body T : Type) where
  isValidUUID : String → String → Option Response × Option GoError
  NewArgError : String → String → GoError
  Validate : W → (Option Response × Option GoError) × W
  addProjectRegionPath : String → W → String × W
  NewRequest : Ctx → String → String → Option Body → W → (Option Req × Option GoError) × W
  Do : Ctx → Option Req → W → (T × Option Response × Option GoError) × W
  metadataCreate : Ctx → String → String → Option Body → W →
    (Option Response × Option GoError) × W

/-- The constant `floatingipsAssign`. -/
def floatingipsAssign : String := "assign"

/-- The constant `portsBasePathV1`. -/
def portsBasePathV1 : String := "/v1/ports"

/-- The constant `portsAllowAddressPairs`. -/
def portsAllowAddressPairs : String := "allow_address_pairs"

/-- Go `FloatingipsServiceOp.Create`. -/
def FloatingipsServiceOp.Create {W Ctx Req Body T : Type}
    (client : ServiceClient W Ctx Req Body T) (ctx : Ctx) (createRequest : Option Body)
    (w : W) : RetrievalOutcome T × W :=
  match createRequest with
  | none => (⟨none, none, some (client.NewArgError "createRequest" "cannot be nil")⟩, w)
  | some body =>
    match client.Validate w with
    | ((resp, some err), w1) => (⟨none, resp, some err⟩, w1)
    | ((_, none), w1) =>
      match client.addProjectRegionPath floatingipsBasePathV1 w1 with
      | (path, w2) =>
        match client.NewRequest ctx "POST" path (some body) w2 with
        | ((_, some err), w3) => (⟨none, none, some err⟩, w3)
        | ((req, none), w3) =>
          match client.Do ctx req w3 with
          | ((_, resp, some err), w4) => (⟨none, resp, some err⟩, w4)
          | ((tasks, resp, none), w4) => (⟨some tasks, resp, none⟩, w4)

/-- Go `FloatingipsServiceOp.Assign`. -/
def FloatingipsServiceOp.Assign {W Ctx Req Body T : Type}
    (client : ServiceClient W Ctx Req Body T) (ctx : Ctx) (fipID : String)
    (assignRequest : Option Body) (w : W) : RetrievalOutcome T × W :=
  match client.isValidUUID fipID "fipID" with
  | (resp, some err) => (⟨none, resp, some err⟩, w)
  | (_, none) =>
    match assignRequest with
    | none => (⟨none, none, some (client.NewArgError "assignRequest" "cannot be nil")⟩, w)
    | some body =>
      match client.Validate w with
      | ((resp, some err), w1) => (⟨none, resp, some err⟩, w1)
      | ((_, none), w1) =>
        match client.addProjectRegionPath floatingipsBasePathV1 w1 with
        | (base, w2) =>
          let path := base ++ "/" ++ fipID ++ "/" ++ floatingipsAssign
          match client.NewRequest ctx "POST" path (some body) w2 with
          | ((_, some err), w3) => (⟨none, none, some err⟩, w3)
          | ((req, none), w3) =>
            match client.Do ctx req w3 with
            | ((_, resp, some err), w4) => (⟨none, resp, some err⟩, w4)
            | ((fip, resp, none), w4) => (⟨some fip, resp, none⟩, w4)

/-- Go `PortsServiceOp.Assign`. -/
def PortsServiceOp.Assign {W Ctx Req Body T : Type}
    (client : ServiceClient W Ctx Req Body T) (ctx : Ctx) (portID : String)
    (allowedAddressPairsRequest : Option Body) (w : W) : RetrievalOutcome T × W :=
  match allowedAddressPairsRequest with
  | none =>
    (⟨none, none, some (client.NewArgError "allowedAddressPairsRequest" "cannot be nil")⟩, w)
  | some body =>
    match client.Validate w with
    | ((resp, some err), w1) => (⟨none, resp, some err⟩, w1)
    | ((_, none), w1) =>
      match client.addProjectRegionPath portsBasePathV1 w1 with
      | (base, w2) =>
        let path := base ++ "/" ++ portID ++ "/" ++ portsAllowAddressPairs
        match client.NewRequest ctx "PUT" path (some body) w2 with
        | ((_, some err), w3) => (⟨none, none, some err⟩, w3)
        | ((req, none), w3) =>
          match client.Do ctx req w3 with
          | ((_, resp, some err), w4) => (⟨none, resp, some err⟩, w4)
          | ((port, resp, none), w4) => (⟨some port, resp, none⟩, w4)

/-- Go `FloatingipsServiceOp.MetadataCreate`, which returns `(*Response, error)`. -/
def FloatingipsServiceOp.MetadataCreate {W Ctx Req Body T : Type}
    (client : ServiceClient W Ctx Req Body T) (ctx : Ctx) (fipID : String)
    (metadata : Option Body) (w : W) : (Option Response × Option GoError) × W :=
  match client.isValidUUID fipID "fipID" with
  | (resp, some err) => ((resp, some err), w)
  | (_, none) =>
    match client.Validate w with
    | ((resp, some err), w1) => ((resp, some err), w1)
    | ((_, none), w1) => client.metadataCreate ctx fipID floatingipsBasePathV1 metadata w1

/-- The client `client` instrumented with a call log kept next to the world state: each
call of a client method (and of the helper `metadataCreate`) appends its name. -/
def traceCalls {W Ctx Req Body T : Type} (client : ServiceClient W Ctx Req Body T) :
    ServiceClient (W × List String) Ctx Req Body T where
  isValidUUID := client.isValidUUID
  NewArgError := client.NewArgError
  Validate := fun s =>
    match client.Validate s.1 with
    | (r, w1) => (r, (w1, s.2 ++ ["Validate"]))
  addProjectRegionPath := fun p s =>
    match client.addProjectRegionPath p s.1 with
    | (r, w1) => (r, (w1, s.2 ++ ["addProjectRegionPath"]))
  NewRequest := fun ctx method path body s =>
    match client.NewRequest ctx method path body s.1 with
    | (r, w1) => (r, (w1, s.2 ++ ["NewRequest"]))
  Do := fun ctx req s =>
    match client.Do ctx req s.1 with
    | (r, w1) => (r, (w1, s.2 ++ ["Do"]))
  metadataCreate := fun ctx id path body s =>
    match client.metadataCreate ctx id path body s.1 with
    | (r, w1) => (r, (w1, s.2 ++ ["metadataCreate"]))

/-- A sample client: `isValidUUID` accepts exactly one identifier, the client is
configured (`Validate` passes) and the server answers 200. -/
def sampleClient : ServiceClient Unit Unit String String String where
  isValidUUID := fun id name =>
    if id = "3fa85f64-5717-4562-b3fc-2c963f66afa6" then (none, none)
    else (none, some (.foreign (name ++ " should be the correct UUID")))
  NewArgError := fun arg reason => .foreign (arg ++ " is invalid because " ++ reason)
  Validate := fun w => ((none, none), w)
  addProjectRegionPath := fun p w => (p ++ "/1/1", w)
  NewRequest := fun _ method path _ w => ((some (method ++ " " ++ path), none), w)
  Do := fun _ _ w => (("decoded", some ⟨200⟩, none), w)
  metadataCreate := fun _ _ _ _ w => ((some ⟨204⟩, none), w)

/-- A sample client whose project is not set, so that `Validate` fails; it is
`sampleClient` otherwise. -/
def unsetProjectClient : ServiceClient Unit Unit String String String :=
  { sampleClient with
    Validate := fun w => ((none, some (.foreign "Client.Project is not set")), w) }

/-! ## Decimal rendering: auxiliary lemmas -/

theorem digitChar_ne_minus {a : Nat} (ha : a < 10) : Nat.digitChar a ≠ '-' := by
  interval_cases a <;> decide

theorem digitChar_toNat {a : Nat} (ha : a < 10) : (Nat.digitChar a).toNat - 48 = a := by
  interval_cases a <;> rfl

theorem toDigitsCore_eq (fuel : Nat) : ∀ (n : Nat) (ds : List Char), n < fuel →
    Nat.toDigitsCore 10 fuel n ds = decimalChars n ++ ds := by
  induction fuel with
  | zero => intro n ds h; omega
  | succ k ih =>
    intro n ds h
    simp only [Nat.toDigitsCore]
    by_cases h0 : n / 10 = 0
    · have hlt : n < 10 := by omega
      simp only [h0, if_true]
      by_cases hn : n = 0
      · subst hn; simp [decimalChars]; rfl
      · have : Nat.digits 10 n = [n] := Nat.digits_of_lt 10 n hn hlt
        simp [decimalChars, hn, this, Nat.mod_eq_of_lt hlt]
    · simp only [h0, if_false]
      have hn : n ≠ 0 := by omega
      have hlt : n / 10 < k := by omega
      rw [ih (n / 10) _ hlt]
      have hd : Nat.digits 10 n = (n % 10) :: Nat.digits 10 (n / 10) :=
        Nat.digits_def' (by norm_num) (Nat.pos_of_ne_zero hn)
      simp [decimalChars, hn, h0, hd]

theorem repr_data (n : Nat) : (Nat.repr n).data = decimalChars n := by
  simp [Nat.repr, Nat.toDigits, toDigitsCore_eq (n + 1) n [] (Nat.lt_succ_self n), List.asString]

theorem decimalValue_decimalChars (n : Nat) : decimalValue (decimalChars n) = n := by
  by_cases hn : n = 0
  · subst hn; simp [decimalChars, decimalValue]
  · have hmap : (Nat.digits 10 n).map ((fun c => c.toNat - 48) ∘ Nat.digitChar)
        = Nat.digits 10 n := by
      conv_rhs => rw [← List.map_id (Nat.digits 10 n)]
      apply List.map_congr_left
      intro d hd
      exact digitChar_toNat (Nat.digits_lt_base (by norm_num) hd)
    simp [decimalChars, decimalValue, hn, List.map_reverse, hmap, Nat.ofDigits_digits]

theorem minus_not_mem_decimalChars (n : Nat) : '-' ∉ decimalChars n := by
  unfold decimalChars
  split_ifs with hn
  · decide
  · intro hmem
    simp only [List.mem_map, List.mem_reverse] at hmem
    obtain ⟨d, hd, hc⟩ := hmem
    exact digitChar_ne_minus (Nat.digits_lt_base (by norm_num) hd) hc

theorem formatInt_data (i : Int) : (formatInt i).data =
    match i with
    | Int.ofNat m => decimalChars m
    | Int.negSucc m => '-' :: decimalChars (m + 1) := by
  cases i with
  | ofNat m => exact repr_data m
  | negSucc m =>
    show ("-" ++ Nat.repr (m + 1)).data = _
    simp [String.data_append, repr_data]

/-- The rendering of `%d` determines the integer. -/
theorem formatInt_injective {a b : Int} (h : formatInt a = formatInt b) : a = b := by
  have hd : (formatInt a).data = (formatInt b).data := by rw [h]
  rw [formatInt_data, formatInt_data] at hd
  cases a with
  | ofNat m =>
    cases b with
    | ofNat k =>
      have := congrArg decimalValue hd
      simp only [decimalValue_decimalChars] at this
      rw [this]
    | negSucc k =>
      exfalso
      apply minus_not_mem_decimalChars m
      simp only at hd
      rw [hd]; simp
  | negSucc m =>
    cases b with
    | ofNat k =>
      exfalso
      apply minus_not_mem_decimalChars k
      simp only at hd
      rw [← hd]; simp
    | negSucc k =>
      simp only [List.cons.injEq, true_and] at hd
      have := congrArg decimalValue hd
      simp only [decimalValue_decimalChars] at this
      have : m = k := by omega
      rw [this]

theorem string_append_left_cancel {p s t : String} (h : p ++ s = p ++ t) : s = t := by
  have hd : (p ++ s).data = (p ++ t).data := by rw [h]
  simp only [String.data_append] at hd
  exact String.ext (List.append_cancel_left hd)

/-! ## `HandleStatusCode`: auxiliary lemmas -/

theorem HandleStatusCode_other {c : Int} (h200 : c ≠ 200) (h404 : c ≠ 404) (h403 : c ≠ 403) :
    HandleStatusCode c = (false, some (fmtErrorf errGetResourceInfo c)) := by
  simp [HandleStatusCode, h200, h404, h403]

theorem fmtErrorf_Error (c : Int) : (fmtErrorf errGetResourceInfo c).Error
    = "error when retrieving resource information, status code: " ++ formatInt c := by
  show ("error when retrieving resource information" ++ ", status code: ") ++ formatInt c = _
  rfl

theorem errorsIs_fmtErrorf (c : Int) :
    errorsIs (fmtErrorf errGetResourceInfo c) errGetResourceInfo = true := by
  simp [fmtErrorf, errorsIs, errGetResourceInfo]

/-! ## `ResourceIsDeleted`: auxiliary lemmas -/

theorem ResourceIsDeleted_of_err_nil {W Ctx T : Type} (ctx : Ctx)
    (f : RetrieveResourceFunc W Ctx T) (id : String) (w : W)
    (h : (f ctx id w).1.err = none) :
    (ResourceIsDeleted ctx f id w).1 = .ok (some errResourceNotDeleted) := by
  unfold ResourceIsDeleted
  rcases hf : f ctx id w with ⟨⟨res, resp, err⟩, w1⟩
  rw [hf] at h
  simp only at h
  subst h
  rfl

theorem ResourceIsDeleted_of_resp_nil {W Ctx T : Type} (ctx : Ctx)
    (f : RetrieveResourceFunc W Ctx T) (id : String) (w : W)
    (herr : (f ctx id w).1.err ≠ none) (hresp : (f ctx id w).1.resp = none) :
    (ResourceIsDeleted ctx f id w).1 = .error .nilPointerDereference := by
  unfold ResourceIsDeleted
  rcases hf : f ctx id w with ⟨⟨res, resp, err⟩, w1⟩
  rw [hf] at herr hresp
  simp only at herr hresp
  subst hresp
  cases err with
  | none => exact absurd rfl herr
  | some e => rfl

theorem ResourceIsDeleted_of_resp {W Ctx T : Type} (ctx : Ctx)
    (f : RetrieveResourceFunc W Ctx T) (id : String) (w : W) (r : Response)
    (herr : (f ctx id w).1.err ≠ none) (hresp : (f ctx id w).1.resp = some r) :
    (ResourceIsDeleted ctx f id w).1 =
      if r.StatusCode = 404 then .ok none else .ok (some errGetResourceInfo) := by
  unfold ResourceIsDeleted
  rcases hf : f ctx id w with ⟨⟨res, resp, err⟩, w1⟩
  rw [hf] at herr hresp
  simp only at herr hresp
  subst hresp
  cases err with
  | none => exact absurd rfl herr
  | some e =>
    by_cases hc : r.StatusCode = 404
    · simp [hc]
    · simp [hc]

theorem ResourceIsExist_of_resp {W Ctx T : Type} (ctx : Ctx)
    (f : GetResourceFunc W Ctx T) (id : String) (w : W) (r : Response)
    (hresp : (f ctx id w).1.resp = some r) :
    (ResourceIsExist ctx f id w).1 = .ok (HandleStatusCode r.StatusCode) := by
  unfold ResourceIsExist
  rcases hf : f ctx id w with ⟨⟨res, resp, err⟩, w1⟩
  rw [hf] at hresp
  simp only at hresp
  subst hresp
  rfl

/-! ## The claims -/

/-- C1: `ResourceIsDeleted` returns nil (confirmed deleted) exactly when the retrieval
function returned a non-nil error together with a response whose status code is 404, for
every retrieval outcome (nil responses included); the outcome `(nil, 404, ErrNotFound)` is
confirmed deleted. -/
theorem ResourceIsDeleted_nil_iff {W Ctx T : Type} (ctx : Ctx)
    (f : RetrieveResourceFunc W Ctx T) (id : String) (w : W) :
    ((ResourceIsDeleted ctx f id w).1 = .ok none ↔
      ((f ctx id w).1.err ≠ none ∧
        ∃ r, (f ctx id w).1.resp = some r ∧ r.StatusCode = 404))
    ∧ (ResourceIsDeleted (W := Unit) (T := Unit) ()
        (constRetrieve ⟨none, some ⟨404⟩, some ErrNotFound⟩) "fip-1" ()).1 = .ok none := by
  refine ⟨?_, rfl⟩
  by_cases herr : (f ctx id w).1.err = none
  · rw [ResourceIsDeleted_of_err_nil ctx f id w herr]
    simp [herr]
  · cases hresp : (f ctx id w).1.resp with
    | none =>
      rw [ResourceIsDeleted_of_resp_nil ctx f id w herr hresp]
      simp
    | some r =>
      rw [ResourceIsDeleted_of_resp ctx f id w r herr hresp]
      by_cases hc : r.StatusCode = 404
      · simp [hc, herr]
      · simp [hc]

/-- C2 (evaluation at the failing input): when the retrieval function returns an error
together with a nil response, `ResourceIsDeleted` panics on the nil dereference instead of
returning one of `errResourceNotDeleted`, nil, `errGetResourceInfo`; the wrapper
`FloatingipsServiceOp.Get` produces such an outcome when `NewRequest` fails. -/
theorem ResourceIsDeleted_nil_response_panics :
    (ResourceIsDeleted (W := Unit) (T := Unit) ()
        (constRetrieve ⟨none, none, some errTransport⟩) "fip-1" ()).1
      = .error .nilPointerDereference
    ∧ (ResourceIsDeleted (W := Unit) (T := Unit) ()
        (constRetrieve ⟨none, none, some errTransport⟩) "fip-1" ()).1
      ≠ .ok (some errGetResourceInfo)
    ∧ (FloatingipsServiceOp.Get brokenRequestClient ()
        "3fa85f64-5717-4562-b3fc-2c963f66afa6" ()).1.resp = none
    ∧ (FloatingipsServiceOp.Get brokenRequestClient ()
        "3fa85f64-5717-4562-b3fc-2c963f66afa6" ()).1.err ≠ none
    ∧ (ResourceIsDeleted () (FloatingipsServiceOp.Get brokenRequestClient)
        "3fa85f64-5717-4562-b3fc-2c963f66afa6" ()).1 = .error .nilPointerDereference := by
  refine ⟨rfl, ?_, rfl, ?_, rfl⟩
  · intro h
    cases h
  · intro h
    cases h

/-- C3: `ResourceIsDeleted` returns `errResourceNotDeleted` exactly when the retrieval
function returned a nil error, whatever the resource and the response are; in particular
an outcome with status 404 and a nil error is reported as still existing, and so is
`(resourceObj, 200, nil)`. -/
theorem ResourceIsDeleted_notDeleted_iff {W Ctx T : Type} (ctx : Ctx)
    (f : RetrieveResourceFunc W Ctx T) (id : String) (w : W) :
    ((ResourceIsDeleted ctx f id w).1 = .ok (some errResourceNotDeleted) ↔
      (f ctx id w).1.err = none)
    ∧ (ResourceIsDeleted (W := Unit) (T := Unit) ()
        (constRetrieve ⟨none, some ⟨404⟩, none⟩) "fip-1" ()).1
          = .ok (some errResourceNotDeleted)
    ∧ (ResourceIsDeleted (W := Unit) (T := String) ()
        (constRetrieve ⟨some "resourceObj", some ⟨200⟩, none⟩) "fip-1" ()).1
          = .ok (some errResourceNotDeleted) := by
  refine ⟨⟨?_, ResourceIsDeleted_of_err_nil ctx f id w⟩, rfl, rfl⟩
  intro h
  by_contra herr
  cases hresp : (f ctx id w).1.resp with
  | none =>
    rw [ResourceIsDeleted_of_resp_nil ctx f id w herr hresp] at h
    cases h
  | some r =>
    rw [ResourceIsDeleted_of_resp ctx f id w r herr hresp] at h
    by_cases hc : r.StatusCode = 404
    · simp [hc] at h
    · simp [hc, errGetResourceInfo, errResourceNotDeleted] at h

/-- C4: for every retrieval outcome with a non-nil error and a response whose status code
is not 404, `ResourceIsDeleted` returns `errGetResourceInfo`, and that error value is
distinct from `errResourceNotDeleted` (also under `errors.Is`, in both directions). -/
theorem ResourceIsDeleted_retrieval_failed {W Ctx T : Type} (ctx : Ctx)
    (f : RetrieveResourceFunc W Ctx T) (id : String) (w : W) (r : Response)
    (herr : (f ctx id w).1.err ≠ none) (hresp : (f ctx id w).1.resp = some r)
    (hcode : r.StatusCode ≠ 404) :
    (ResourceIsDeleted ctx f id w).1 = .ok (some errGetResourceInfo)
    ∧ errGetResourceInfo ≠ errResourceNotDeleted
    ∧ errorsIs errGetResourceInfo errResourceNotDeleted = false
    ∧ errorsIs errResourceNotDeleted errGetResourceInfo = false := by
  refine ⟨?_, by decide, by decide, by decide⟩
  rw [ResourceIsDeleted_of_resp ctx f id w r herr hresp]
  simp [hcode]

/-- Witness of C4: the outcomes `(nil, 500, err)` and `(nil, 403, err)`. -/
theorem ResourceIsDeleted_retrieval_failed_witness :
    (ResourceIsDeleted (W := Unit) (T := Unit) ()
        (constRetrieve ⟨none, some ⟨500⟩, some errTransport⟩) "fip-1" ()).1
      = .ok (some errGetResourceInfo)
    ∧ (ResourceIsDeleted (W := Unit) (T := Unit) ()
        (constRetrieve ⟨none, some ⟨403⟩, some errTransport⟩) "fip-1" ()).1
      = .ok (some errGetResourceInfo) :=
  ⟨(ResourceIsDeleted_retrieval_failed (W := Unit) (T := Unit) ()
      (constRetrieve ⟨none, some ⟨500⟩, some errTransport⟩) "fip-1" () ⟨500⟩
      (by simp [constRetrieve]) rfl (by decide)).1,
   (ResourceIsDeleted_retrieval_failed (W := Unit) (T := Unit) ()
      (constRetrieve ⟨none, some ⟨403⟩, some errTransport⟩) "fip-1" () ⟨403⟩
      (by simp [constRetrieve]) rfl (by decide)).1⟩

/-- C5: `HandleStatusCode(200)` is `(true, nil)`, and for every integer `c` the boolean
result of `HandleStatusCode(c)` is true exactly when `c = 200`. -/
theorem HandleStatusCode_true_iff (c : Int) :
    HandleStatusCode 200 = (true, none) ∧ ((HandleStatusCode c).1 = true ↔ c = 200) := by
  refine ⟨by decide, ?_⟩
  unfold HandleStatusCode
  by_cases h : c = 200
  · simp [h]
  · by_cases h2 : c = 404 ∨ c = 403
    · simp [h, h2]
    · simp [h, h2]

/-- C6: for every `c` in `{404, 403}`, `HandleStatusCode(c)` is `(false, nil)`. -/
theorem HandleStatusCode_absent (c : Int) (h : c = 404 ∨ c = 403) :
    HandleStatusCode c = (false, none) := by
  rcases h with h | h <;> subst h <;> decide

/-- Witness of C6: both codes of the set. -/
theorem HandleStatusCode_absent_witness :
    HandleStatusCode 404 = (false, none) ∧ HandleStatusCode 403 = (false, none) :=
  ⟨HandleStatusCode_absent 404 (Or.inl rfl), HandleStatusCode_absent 403 (Or.inr rfl)⟩

/-- C7: for every integer `c` outside `{200, 404, 403}`, `HandleStatusCode(c)` returns
false together with a non-nil error that wraps `errGetResourceInfo` (`errors.Is` holds) and
whose message is "error when retrieving resource information, status code: " followed by
the decimal rendering of `c`; two different such codes give different messages. -/
theorem HandleStatusCode_retrieval_failed (c d : Int)
    (hc : c ≠ 200 ∧ c ≠ 404 ∧ c ≠ 403) (hd : d ≠ 200 ∧ d ≠ 404 ∧ d ≠ 403) :
    (∃ e, HandleStatusCode c = (false, some e)
      ∧ errorsIs e errGetResourceInfo = true
      ∧ e.Error = "error when retrieving resource information, status code: " ++ formatInt c)
    ∧ (c ≠ d → ∀ e1 e2, (HandleStatusCode c).2 = some e1 → (HandleStatusCode d).2 = some e2 →
        e1.Error ≠ e2.Error) := by
  have h1 := HandleStatusCode_other hc.1 hc.2.1 hc.2.2
  have h2 := HandleStatusCode_other hd.1 hd.2.1 hd.2.2
  refine ⟨⟨_, h1, errorsIs_fmtErrorf c, fmtErrorf_Error c⟩, ?_⟩
  intro hne e1 e2 he1 he2 hmsg
  rw [h1] at he1
  rw [h2] at he2
  simp only [Option.some.injEq] at he1 he2
  subst he1
  subst he2
  rw [fmtErrorf_Error, fmtErrorf_Error] at hmsg
  exact hne (formatInt_injective (string_append_left_cancel hmsg))

/-- Witness of C7: the codes 0, -1, 204 and 500, with their messages spelled out. -/
theorem HandleStatusCode_retrieval_failed_witness :
    ((∃ e, HandleStatusCode 0 = (false, some e)
        ∧ errorsIs e errGetResourceInfo = true
        ∧ e.Error = "error when retrieving resource information, status code: " ++ formatInt 0)
      ∧ ((0 : Int) ≠ -1 → ∀ e1 e2, (HandleStatusCode 0).2 = some e1 →
          (HandleStatusCode (-1)).2 = some e2 → e1.Error ≠ e2.Error))
    ∧ ((∃ e, HandleStatusCode 204 = (false, some e)
        ∧ errorsIs e errGetResourceInfo = true
        ∧ e.Error = "error when retrieving resource information, status code: "
            ++ formatInt 204)
      ∧ ((204 : Int) ≠ 500 → ∀ e1 e2, (HandleStatusCode 204).2 = some e1 →
          (HandleStatusCode 500).2 = some e2 → e1.Error ≠ e2.Error))
    ∧ (HandleStatusCode 0).2.map GoError.Error
        = some "error when retrieving resource information, status code: 0"
    ∧ (HandleStatusCode (-1)).2.map GoError.Error
        = some "error when retrieving resource information, status code: -1"
    ∧ (HandleStatusCode 204).2.map GoError.Error
        = some "error when retrieving resource information, status code: 204" :=
  ⟨HandleStatusCode_retrieval_failed 0 (-1) (by decide) (by decide),
   HandleStatusCode_retrieval_failed 204 500 (by decide) (by decide),
   by decide, by decide, by decide⟩

/-- The path of `ResourceIsExist` on which a response was returned: when the get function
returns a response with status code `s`, `ResourceIsExist` returns exactly
`HandleStatusCode(s)`; two outcomes with the same status code give the same result whatever
their resources and errors are. -/
theorem ResourceIsExist_eq_HandleStatusCode {W Ctx T : Type} (ctx ctx2 : Ctx)
    (f g : GetResourceFunc W Ctx T) (id id2 : String) (w w2 : W) (r r2 : Response)
    (hf : (f ctx id w).1.resp = some r) (hg : (g ctx2 id2 w2).1.resp = some r2)
    (hs : r.StatusCode = r2.StatusCode) :
    (ResourceIsExist ctx f id w).1 = .ok (HandleStatusCode r.StatusCode)
    ∧ (ResourceIsExist ctx2 g id2 w2).1 = (ResourceIsExist ctx f id w).1 := by
  rw [ResourceIsExist_of_resp ctx f id w r hf, ResourceIsExist_of_resp ctx2 g id2 w2 r2 hg, hs]
  exact ⟨rfl, rfl⟩

/-- Instances of the response path of `ResourceIsExist`: status 403 yields `(false, nil)`
and status 500 yields false with an error wrapping `errGetResourceInfo`, each for two
outcomes that differ in resource and error. -/
theorem ResourceIsExist_eq_HandleStatusCode_witness :
    ((ResourceIsExist (W := Unit) (T := String) ()
          (constRetrieve ⟨none, some ⟨403⟩, some ErrNotFound⟩) "fip-1" ()).1
        = .ok (HandleStatusCode 403)
      ∧ (ResourceIsExist (W := Unit) (T := String) ()
          (constRetrieve ⟨some "resourceObj", some ⟨403⟩, none⟩) "fip-2" ()).1
        = (ResourceIsExist (W := Unit) (T := String) ()
          (constRetrieve ⟨none, some ⟨403⟩, some ErrNotFound⟩) "fip-1" ()).1)
    ∧ ((ResourceIsExist (W := Unit) (T := String) ()
          (constRetrieve ⟨none, some ⟨500⟩, some errTransport⟩) "fip-1" ()).1
        = .ok (HandleStatusCode 500)
      ∧ (ResourceIsExist (W := Unit) (T := String) ()
          (constRetrieve ⟨some "resourceObj", some ⟨500⟩, none⟩) "fip-2" ()).1
        = (ResourceIsExist (W := Unit) (T := String) ()
          (constRetrieve ⟨none, some ⟨500⟩, some errTransport⟩) "fip-1" ()).1)
    ∧ HandleStatusCode 403 = (false, none)
    ∧ (HandleStatusCode 500).1 = false
    ∧ errorsIsOpt (HandleStatusCode 500).2 errGetResourceInfo = true :=
  ⟨ResourceIsExist_eq_HandleStatusCode (W := Unit) (T := String) () ()
      (constRetrieve ⟨none, some ⟨403⟩, some ErrNotFound⟩)
      (constRetrieve ⟨some "resourceObj", some ⟨403⟩, none⟩) "fip-1" "fip-2" () ()
      ⟨403⟩ ⟨403⟩ rfl rfl rfl,
   ResourceIsExist_eq_HandleStatusCode (W := Unit) (T := String) () ()
      (constRetrieve ⟨none, some ⟨500⟩, some errTransport⟩)
      (constRetrieve ⟨some "resourceObj", some ⟨500⟩, none⟩) "fip-1" "fip-2" () ()
      ⟨500⟩ ⟨500⟩ rfl rfl rfl,
   by decide, by decide, by decide⟩

/-- C8 (evaluation at the failing input): for every get function and id, the result of
`ResourceIsExist` is decided by the returned response alone: `HandleStatusCode(s)` when a
response with status code `s` was returned, and a nil-dereference panic when the response
is nil. The get function that returns `(nil, nil, err)`, such as `FloatingipsServiceOp.Get`
when `NewRequest` fails, makes `ResourceIsExist` panic: it returns no value of
`HandleStatusCode` at all. -/
theorem ResourceIsExist_nil_response_panics {W Ctx T : Type} (ctx : Ctx)
    (f : GetResourceFunc W Ctx T) (id : String) (w : W) :
    (ResourceIsExist ctx f id w).1
      = (match (f ctx id w).1.resp with
        | none => .error .nilPointerDereference
        | some r => .ok (HandleStatusCode r.StatusCode))
    ∧ (ResourceIsExist (W := Unit) (T := Unit) ()
        (constRetrieve ⟨none, none, some errTransport⟩) "fip-1" ()).1
      = .error .nilPointerDereference
    ∧ (∀ c : Int, (ResourceIsExist (W := Unit) (T := Unit) ()
        (constRetrieve ⟨none, none, some errTransport⟩) "fip-1" ()).1
      ≠ .ok (HandleStatusCode c))
    ∧ (FloatingipsServiceOp.Get brokenRequestClient ()
        "3fa85f64-5717-4562-b3fc-2c963f66afa6" ()).1.resp = none
    ∧ (ResourceIsExist () (FloatingipsServiceOp.Get brokenRequestClient)
        "3fa85f64-5717-4562-b3fc-2c963f66afa6" ()).1 = .error .nilPointerDereference := by
  refine ⟨?_, rfl, ?_, rfl, rfl⟩
  · unfold ResourceIsExist
    rcases hf : f ctx id w with ⟨⟨res, resp, err⟩, w1⟩
    cases resp with
    | none => rfl
    | some r => rfl
  · intro c h
    cases h

/-- C9: for every retrieval outcome with status code 403 and a non-nil error,
`ResourceIsExist` returns `(false, nil)` while `ResourceIsDeleted` on the same outcome
returns `errGetResourceInfo`, which is not the success value nil. -/
theorem forbidden_exist_vs_deleted {W Ctx T : Type} (ctx : Ctx)
    (f : RetrieveResourceFunc W Ctx T) (id : String) (w : W) (r : Response)
    (hresp : (f ctx id w).1.resp = some r) (hcode : r.StatusCode = 403)
    (herr : (f ctx id w).1.err ≠ none) :
    (ResourceIsExist ctx f id w).1 = .ok (false, none)
    ∧ (ResourceIsDeleted ctx f id w).1 = .ok (some errGetResourceInfo)
    ∧ (ResourceIsDeleted ctx f id w).1 ≠ .ok none := by
  have hd : (ResourceIsDeleted ctx f id w).1 = .ok (some errGetResourceInfo) := by
    rw [ResourceIsDeleted_of_resp ctx f id w r herr hresp, hcode]
    simp
  refine ⟨?_, hd, ?_⟩
  · rw [ResourceIsExist_of_resp ctx f id w r hresp, hcode]
    rfl
  · rw [hd]
    intro h
    cases h

/-- Witness of C9: the outcome `(nil, 403, err)`. -/
theorem forbidden_exist_vs_deleted_witness :
    (ResourceIsExist (W := Unit) (T := Unit) ()
        (constRetrieve ⟨none, some ⟨403⟩, some errTransport⟩) "fip-1" ()).1
      = .ok (false, none)
    ∧ (ResourceIsDeleted (W := Unit) (T := Unit) ()
        (constRetrieve ⟨none, some ⟨403⟩, some errTransport⟩) "fip-1" ()).1
      = .ok (some errGetResourceInfo)
    ∧ (ResourceIsDeleted (W := Unit) (T := Unit) ()
        (constRetrieve ⟨none, some ⟨403⟩, some errTransport⟩) "fip-1" ()).1
      ≠ .ok none :=
  forbidden_exist_vs_deleted (W := Unit) (T := Unit) ()
    (constRetrieve ⟨none, some ⟨403⟩, some errTransport⟩) "fip-1" () ⟨403⟩ rfl rfl
    (by simp [constRetrieve])

/-- C10: each invocation of `ResourceIsDeleted` and of `ResourceIsExist` calls the supplied
function exactly once, with the `ctx` and `id` it was given, on every path (the panicking
one included): with the function instrumented by a call log, the log grows by the single
entry `(ctx, id)`, the world is the one left by that single call, and the result is that of
the uninstrumented run. Consequently two functions that agree on `(ctx, id)` in the current
world give the same result. -/
theorem resolvers_call_once {W Ctx T : Type} (ctx : Ctx)
    (f g : RetrieveResourceFunc W Ctx T) (id : String) (w : W) (log : List (Ctx × String))
    (hagree : f ctx id w = g ctx id w) :
    (ResourceIsDeleted ctx (recordCalls f) id (w, log)).2
        = ((f ctx id w).2, log ++ [(ctx, id)])
    ∧ (ResourceIsDeleted ctx (recordCalls f) id (w, log)).1 = (ResourceIsDeleted ctx f id w).1
    ∧ (ResourceIsExist ctx (recordCalls f) id (w, log)).2
        = ((f ctx id w).2, log ++ [(ctx, id)])
    ∧ (ResourceIsExist ctx (recordCalls f) id (w, log)).1 = (ResourceIsExist ctx f id w).1
    ∧ ResourceIsDeleted ctx f id w = ResourceIsDeleted ctx g id w
    ∧ ResourceIsExist ctx f id w = ResourceIsExist ctx g id w := by
  refine ⟨?_, ?_, ?_, ?_, ?_, ?_⟩
  · unfold ResourceIsDeleted recordCalls
    rcases hf : f ctx id w with ⟨⟨res, resp, err⟩, w1⟩
    cases err with
    | none => simp [hf]
    | some e =>
      cases resp with
      | none => simp [hf]
      | some r => by_cases hc : r.StatusCode = 404 <;> simp [hf, hc]
  · unfold ResourceIsDeleted recordCalls
    rcases hf : f ctx id w with ⟨⟨res, resp, err⟩, w1⟩
    cases err with
    | none => simp [hf]
    | some e =>
      cases resp with
      | none => simp [hf]
      | some r => by_cases hc : r.StatusCode = 404 <;> simp [hf, hc]
  · unfold ResourceIsExist recordCalls
    rcases hf : f ctx id w with ⟨⟨res, resp, err⟩, w1⟩
    cases resp with
    | none => simp [hf]
    | some r => simp [hf]
  · unfold ResourceIsExist recordCalls
    rcases hf : f ctx id w with ⟨⟨res, resp, err⟩, w1⟩
    cases resp with
    | none => simp [hf]
    | some r => simp [hf]
  · unfold ResourceIsDeleted
    rw [hagree]
  · unfold ResourceIsExist
    rw [hagree]

/-- Witness of C10: two functions that agree on `("ctx", "fip-1")` and differ elsewhere;
the log records the one call, on the returning path and on the panicking path. -/
theorem resolvers_call_once_witness :
    ((ResourceIsDeleted "ctx"
          (recordCalls (W := Unit) (T := Unit)
            (constRetrieve ⟨none, some ⟨404⟩, some ErrNotFound⟩)) "fip-1"
          ((), [("old", "fip-0")])).2
        = ((), [("old", "fip-0"), ("ctx", "fip-1")]))
    ∧ ((ResourceIsExist "ctx"
          (recordCalls (W := Unit) (T := Unit)
            (constRetrieve ⟨none, none, some errTransport⟩)) "fip-1"
          ((), [])).2
        = ((), [("ctx", "fip-1")]))
    ∧ ResourceIsDeleted (W := Unit) (T := Unit) "ctx"
          (constRetrieve ⟨none, some ⟨404⟩, some ErrNotFound⟩) "fip-1" ()
        = ResourceIsDeleted (W := Unit) (T := Unit) "ctx"
          (fun _ id w => if id = "fip-1" then (⟨none, some ⟨404⟩, some ErrNotFound⟩, w)
            else (⟨none, some ⟨200⟩, none⟩, w)) "fip-1" () :=
  ⟨(resolvers_call_once (W := Unit) (T := Unit) "ctx"
      (constRetrieve ⟨none, some ⟨404⟩, some ErrNotFound⟩)
      (fun _ id w => if id = "fip-1" then (⟨none, some ⟨404⟩, some ErrNotFound⟩, w)
        else (⟨none, some ⟨200⟩, none⟩, w)) "fip-1" () [("old", "fip-0")] rfl).1,
   (resolvers_call_once (W := Unit) (T := Unit) "ctx"
      (constRetrieve ⟨none, none, some errTransport⟩)
      (constRetrieve ⟨none, none, some errTransport⟩) "fip-1" () [] rfl).2.2.1,
   (resolvers_call_once (W := Unit) (T := Unit) "ctx"
      (constRetrieve ⟨none, some ⟨404⟩, some ErrNotFound⟩)
      (fun _ id w => if id = "fip-1" then (⟨none, some ⟨404⟩, some ErrNotFound⟩, w)
        else (⟨none, some ⟨200⟩, none⟩, w)) "fip-1" () [("old", "fip-0")] rfl).2.2.2.2.1⟩

/-- C11: the two resolvers never contradict each other on the same retrieval outcome: if
`ResourceIsDeleted` returns nil then `ResourceIsExist` returns `(false, nil)`, so it reports
neither true nor an error. The converse fails: on `(nil, 403, err)` and on `(nil, 404, nil)`
`ResourceIsExist` returns `(false, nil)` while `ResourceIsDeleted` does not return nil. -/
theorem deleted_implies_not_exist {W Ctx T : Type} (ctx : Ctx)
    (f : RetrieveResourceFunc W Ctx T) (id : String) (w : W)
    (h : (ResourceIsDeleted ctx f id w).1 = .ok none) :
    (ResourceIsExist ctx f id w).1 = .ok (false, none)
    ∧ (∀ b e, (ResourceIsExist ctx f id w).1 = .ok (b, e) → b = false ∧ e = none)
    ∧ ((ResourceIsExist (W := Unit) (T := Unit) ()
          (constRetrieve ⟨none, some ⟨403⟩, some errTransport⟩) "fip-1" ()).1
        = .ok (false, none)
      ∧ (ResourceIsDeleted (W := Unit) (T := Unit) ()
          (constRetrieve ⟨none, some ⟨403⟩, some errTransport⟩) "fip-1" ()).1
        ≠ .ok none)
    ∧ ((ResourceIsExist (W := Unit) (T := Unit) ()
          (constRetrieve ⟨none, some ⟨404⟩, none⟩) "fip-1" ()).1
        = .ok (false, none)
      ∧ (ResourceIsDeleted (W := Unit) (T := Unit) ()
          (constRetrieve ⟨none, some ⟨404⟩, none⟩) "fip-1" ()).1
        ≠ .ok none) := by
  have hex : (ResourceIsExist ctx f id w).1 = .ok (false, none) := by
    by_cases herr : (f ctx id w).1.err = none
    · rw [ResourceIsDeleted_of_err_nil ctx f id w herr] at h
      cases h
    · cases hresp : (f ctx id w).1.resp with
      | none =>
        rw [ResourceIsDeleted_of_resp_nil ctx f id w herr hresp] at h
        cases h
      | some r =>
        rw [ResourceIsDeleted_of_resp ctx f id w r herr hresp] at h
        by_cases hc : r.StatusCode = 404
        · rw [ResourceIsExist_of_resp ctx f id w r hresp, hc]
          rfl
        · simp [hc] at h
  refine ⟨hex, ?_, ⟨rfl, ?_⟩, ⟨rfl, ?_⟩⟩
  · intro b e hbe
    rw [hex] at hbe
    simp only [Except.ok.injEq, Prod.mk.injEq] at hbe
    exact ⟨hbe.1.symm, hbe.2.symm⟩
  · intro hd
    cases hd
  · intro hd
    cases hd

/-- Witness of C11: the outcome `(nil, 404, ErrNotFound)`, on which `ResourceIsDeleted`
returns nil. -/
theorem deleted_implies_not_exist_witness :
    (ResourceIsDeleted (W := Unit) (T := Unit) ()
        (constRetrieve ⟨none, some ⟨404⟩, some ErrNotFound⟩) "fip-1" ()).1 = .ok none
    ∧ (ResourceIsExist (W := Unit) (T := Unit) ()
        (constRetrieve ⟨none, some ⟨404⟩, some ErrNotFound⟩) "fip-1" ()).1
      = .ok (false, none) :=
  ⟨rfl, (deleted_implies_not_exist (W := Unit) (T := Unit) ()
      (constRetrieve ⟨none, some ⟨404⟩, some ErrNotFound⟩) "fip-1" () rfl).1⟩

/-! ## The wrappers: auxiliary lemmas -/

theorem Assign_of_invalid_uuid {W Ctx Req Body T : Type}
    (client : ServiceClient W Ctx Req Body T) (ctx : Ctx) (fipID : String)
    (body : Option Body) (w : W) (e : GoError)
    (h : (client.isValidUUID fipID "fipID").2 = some e) :
    FloatingipsServiceOp.Assign client ctx fipID body w
      = (⟨none, (client.isValidUUID fipID "fipID").1, some e⟩, w) := by
  unfold FloatingipsServiceOp.Assign
  rcases hu : client.isValidUUID fipID "fipID" with ⟨resp, err⟩
  rw [hu] at h
  simp only at h
  subst h
  rfl

theorem Assign_nil_of_valid_uuid {W Ctx Req Body T : Type}
    (client : ServiceClient W Ctx Req Body T) (ctx : Ctx) (fipID : String) (w : W)
    (h : (client.isValidUUID fipID "fipID").2 = none) :
    FloatingipsServiceOp.Assign client ctx fipID none w
      = (⟨none, none, some (client.NewArgError "assignRequest" "cannot be nil")⟩, w) := by
  unfold FloatingipsServiceOp.Assign
  rcases hu : client.isValidUUID fipID "fipID" with ⟨resp, err⟩
  rw [hu] at h
  simp only at h
  subst h
  rfl

/-- C12 (counterexample): the wrapper `FloatingipsServiceOp.MetadataCreate` takes the
request-body pointer `metadata`, yet with a nil `metadata` it calls `client.Validate`: on a
client whose project is not set it returns the error of `Validate`, not the argument error
"cannot be nil", and the call log holds `Validate`; on a configured client the log holds
`Validate` before the helper is entered. Only an identifier that fails `isValidUUID` is
turned down before the client is called, and then with the error of `isValidUUID`. -/
theorem MetadataCreate_nil_calls_Validate :
    FloatingipsServiceOp.MetadataCreate (traceCalls unsetProjectClient) ()
        "3fa85f64-5717-4562-b3fc-2c963f66afa6" none ((), [])
      = ((none, some (.foreign "Client.Project is not set")), ((), ["Validate"]))
    ∧ GoError.foreign "Client.Project is not set"
        ≠ unsetProjectClient.NewArgError "metadata" "cannot be nil"
    ∧ (FloatingipsServiceOp.MetadataCreate (traceCalls sampleClient) ()
        "3fa85f64-5717-4562-b3fc-2c963f66afa6" none ((), [])).2.2
      = ["Validate", "metadataCreate"]
    ∧ FloatingipsServiceOp.MetadataCreate (traceCalls sampleClient) ()
        "not-a-uuid" none ((), [])
      = ((none, some (.foreign "fipID should be the correct UUID")), ((), [])) :=
  ⟨rfl, by decide, rfl, rfl⟩

/-- C12 (amended): `FloatingipsServiceOp.Create` and `PortsServiceOp.Assign` with a nil
request return `(nil, nil, NewArgError(<parameter name>, "cannot be nil"))` for every
client and leave the world untouched, so no client method is called (the call log of the
instrumented client does not grow); `FloatingipsServiceOp.Assign` with a nil request does
the same when `fipID` passes `isValidUUID`, and when `isValidUUID` fails it returns the
response and error of `isValidUUID`, whatever the request is. -/
theorem wrappers_reject_nil_request {W Ctx Req Body T : Type}
    (client : ServiceClient W Ctx Req Body T) (ctx : Ctx) (portID fipID badID : String)
    (w : W) (log : List String) (e : GoError)
    (hvalid : (client.isValidUUID fipID "fipID").2 = none)
    (hbad : (client.isValidUUID badID "fipID").2 = some e) :
    FloatingipsServiceOp.Create client ctx none w
      = (⟨none, none, some (client.NewArgError "createRequest" "cannot be nil")⟩, w)
    ∧ PortsServiceOp.Assign client ctx portID none w
      = (⟨none, none,
          some (client.NewArgError "allowedAddressPairsRequest" "cannot be nil")⟩, w)
    ∧ FloatingipsServiceOp.Assign client ctx fipID none w
      = (⟨none, none, some (client.NewArgError "assignRequest" "cannot be nil")⟩, w)
    ∧ (∀ body : Option Body, FloatingipsServiceOp.Assign client ctx badID body w
      = (⟨none, (client.isValidUUID badID "fipID").1, some e⟩, w))
    ∧ (FloatingipsServiceOp.Create (traceCalls client) ctx none (w, log)).2 = (w, log)
    ∧ (PortsServiceOp.Assign (traceCalls client) ctx portID none (w, log)).2 = (w, log)
    ∧ (FloatingipsServiceOp.Assign (traceCalls client) ctx fipID none (w, log)).2
      = (w, log) := by
  refine ⟨rfl, rfl, Assign_nil_of_valid_uuid client ctx fipID w hvalid,
    fun body => Assign_of_invalid_uuid client ctx badID body w e hbad, rfl, rfl, ?_⟩
  rw [Assign_nil_of_valid_uuid (traceCalls client) ctx fipID (w, log) hvalid]

/-- Witness of C12 (amended): the sample client, a valid and an invalid identifier; for
contrast, a non-nil request makes the instrumented client log its four calls. -/
theorem wrappers_reject_nil_request_witness :
    (FloatingipsServiceOp.Create sampleClient () none ()
        = (⟨none, none, some (.foreign "createRequest is invalid because cannot be nil")⟩, ())
      ∧ PortsServiceOp.Assign sampleClient () "port-1" none ()
        = (⟨none, none,
            some (.foreign "allowedAddressPairsRequest is invalid because cannot be nil")⟩,
          ())
      ∧ FloatingipsServiceOp.Assign sampleClient ()
          "3fa85f64-5717-4562-b3fc-2c963f66afa6" none ()
        = (⟨none, none, some (.foreign "assignRequest is invalid because cannot be nil")⟩, ())
      ∧ (∀ body : Option String,
          FloatingipsServiceOp.Assign sampleClient () "not-a-uuid" body ()
        = (⟨none, none, some (.foreign "fipID should be the correct UUID")⟩, ()))
      ∧ (FloatingipsServiceOp.Create (traceCalls sampleClient) () none ((), ["earlier"])).2
        = ((), ["earlier"])
      ∧ (PortsServiceOp.Assign (traceCalls sampleClient) () "port-1" none
          ((), ["earlier"])).2 = ((), ["earlier"])
      ∧ (FloatingipsServiceOp.Assign (traceCalls sampleClient) ()
          "3fa85f64-5717-4562-b3fc-2c963f66afa6" none ((), ["earlier"])).2
        = ((), ["earlier"]))
    ∧ (FloatingipsServiceOp.Create (traceCalls sampleClient) () (some "body")
        ((), ["earlier"])).2.2
      = ["earlier", "Validate", "addProjectRegionPath", "NewRequest", "Do"] :=
  ⟨wrappers_reject_nil_request sampleClient () "port-1"
      "3fa85f64-5717-4562-b3fc-2c963f66afa6" "not-a-uuid" () ["earlier"]
      (.foreign "fipID should be the correct UUID") rfl rfl,
   rfl⟩

end EdgeCloud
